import Mathlib

/-!
Shallow embedding of the host-side driver in `src/src/ljmd-cl.c`
(a Lennard-Jones molecular-dynamics driver that offloads per-step kernels
to an OpenCL device).  The embedding covers:

* the input-line helper `get_me_a_line` (comment cutting and whitespace
  stripping, lines 66-91);
* command-line handling in `main` (lines 147-162) together with the
  `strtol` base-10 parse it relies on;
* the early-exit control flow of `main` (environment initialization,
  twelve input-script reads, restart-file open; lines 165-235);
* the host-side energy finalization (lines 314-318 and 438-451) over
  exact rationals;
* the per-step dispatch/readback/output schedule of the main MD loop
  (lines 339-457) as an event trace, plus a staging model recording at
  which step each host buffer (positions, potential partials, kinetic
  partials) was last downloaded;
* the sequence of updates to the `status` variable (plain assignment
  versus bitwise-OR accumulation) between `CheckSuccess` checkpoints.
-/

namespace LjmdCL

/-- C's `isspace` in the default locale: space and the control characters
`\t`, `\n`, `\v`, `\f`, `\r` (codes 9-13). -/
def isCSpace (c : Char) : Bool := (c == ' ') || (9 ≤ c.toNat && c.toNat ≤ 13)

/-- Lines 74-75: `ptr=strchr(tmp,'#'); if (ptr) *ptr='\0';` — everything
from the first `#` on is cut off. -/
def cutComment (l : List Char) : List Char := l.takeWhile (fun c => c ≠ '#')

/-- Lines 76-80: walk back from the end writing `'\0'` over trailing
whitespace, i.e. drop the maximal trailing whitespace run.  (The C loop
assumes some non-whitespace character exists; the embedding totalizes.) -/
def rstrip (l : List Char) : List Char := (l.reverse.dropWhile isCSpace).reverse

/-- Dropping the maximal leading whitespace run (the effect of the
`while(isspace(*ptr)) {++ptr;}` scan at line 82). -/
def lstrip (l : List Char) : List Char := l.dropWhile isCSpace

/-- `get_me_a_line` (lines 66-91), restricted to a successfully read line:
the comment is cut and trailing whitespace stripped in place on `tmp`, but
line 84 executes `strcpy(buf,tmp)` — copying `tmp`, not the
leading-whitespace-skipped pointer `ptr` computed at lines 81-82 — so the
delivered value keeps its leading whitespace. -/
def get_me_a_line (l : List Char) : List Char := rstrip (cutComment l)

/-- The value the surrounding documentation (and the spec) describe:
comment cut, trailing AND leading whitespace stripped. -/
def spec_trimmed_line (l : List Char) : List Char := lstrip (rstrip (cutComment l))

/-- Value of a digit run, most significant first (what `strtol` accumulates). -/
def digitsVal (l : List Char) : Nat := l.foldl (fun a c => 10 * a + (c.toNat - 48)) 0

/-- C `strtol(s, NULL, 10)` on in-range inputs: skip leading whitespace,
read an optional sign, then a (possibly empty) digit run; an empty digit
run yields 0. -/
def strtol10 (l : List Char) : Int :=
  let s := l.dropWhile isCSpace
  match s with
  | '-' :: r => - (digitsVal (r.takeWhile Char.isDigit) : Int)
  | '+' :: r => (digitsVal (r.takeWhile Char.isDigit) : Int)
  | _ => (digitsVal (s.takeWhile Char.isDigit) : Int)

/-- Outcome of the argument `switch` at lines 147-162: either
`PrintUsageAndExit` (which prints usage and calls `exit(1)`, lines 93-98)
or acceptance with a thread count. -/
inductive ArgResult
| usageExit
| ok (nthreads : Int)
deriving DecidableEq

/-- Lines 147-162: with one extra argument the device name selects a
default thread count (16 for `cpu`, 1024 otherwise); with two, the thread
count is `strtol(argv[2],NULL,10)` and only a negative value is rejected;
any other argument count is rejected. -/
def parseArgs (argv : List String) : ArgResult :=
  match argv with
  | [_, dev] => ArgResult.ok (if dev = "cpu" then 16 else 1024)
  | [_, _, t] =>
      if strtol10 t.toList < 0 then ArgResult.usageExit else ArgResult.ok (strtol10 t.toList)
  | _ => ArgResult.usageExit

/-- The early-exit control flow of `main` before the simulation proper:
argument check (exit 1), `InitOpenCLEnvironment` (return 4 on failure,
lines 165-168), twelve `get_me_a_line` reads each returning 1 on failure
(lines 171-191), restart-file `fopen` (return 3 on failure, lines
212-235).  `none` means the run proceeds to the simulation. -/
def mainExit (argv : List String) (clOK : Bool) (lineOK : List Bool)
    (restartOK : Bool) : Option Nat :=
  match parseArgs argv with
  | ArgResult.usageExit => some 1
  | ArgResult.ok _ =>
    if clOK = false then some 4
    else if lineOK.all (fun b => b) = false then some 1
    else if restartOK = false then some 3
    else none

/-- `kboltz = 0.0019872067` (line 37), as an exact rational. -/
def kboltz : ℚ := 19872067 / 10000000000

/-- `mvsq2e = 2390.05736153349` (line 38), as an exact rational. -/
def mvsq2e : ℚ := 239005736153349 / 100000000000

/-- The host reduction loops (`for(i...) sys.ekin += tmp_ekin[i]`, lines
316 and 444-447) starting from `ZERO`. -/
def sumPartials (l : List ℚ) : ℚ := l.foldl (fun a b => a + b) 0

/-- Host kinetic-energy finalization, identical at initialization (lines
316-317) and at each print boundary (lines 440-450): sum the per-worker
partials, then `sys.ekin *= HALF * mvsq2e * sys.mass`. -/
def finalizeEkin (partials : List ℚ) (mass : ℚ) : ℚ :=
  sumPartials partials * (1 / 2 * mvsq2e * mass)

/-- `sys.temp = TWO * sys.ekin / (THREE * sys.natoms - THREE) / kboltz`
(lines 318 and 451). -/
def finalizeTemp (ekin : ℚ) (natoms : ℕ) : ℚ :=
  2 * ekin / (3 * (natoms : ℚ) - 3) / kboltz

/-- Host-visible events of the driver, in dispatch/transfer order.  Kernel
dispatches carry the global work size passed to `clEnqueueNDRangeKernel`
(always `globalWorkSize[0] = nthreads`, lines 240-241). -/
inductive Ev
| azzero (ws : Nat)
| verletFirst (ws : Nat)
| force (ws : Nat)
| verletSecond (ws : Nat)
| ekinKernel (ws : Nat)
| readPos
| readEpot
| readEkin
| output
deriving DecidableEq

def isAzzero : Ev → Bool
| Ev.azzero _ => true
| _ => false

def isVerletFirst : Ev → Bool
| Ev.verletFirst _ => true
| _ => false

def isForce : Ev → Bool
| Ev.force _ => true
| _ => false

def isVerletSecond : Ev → Bool
| Ev.verletSecond _ => true
| _ => false

def isEkinKernel : Ev → Bool
| Ev.ekinKernel _ => true
| _ => false

def isReadPos : Ev → Bool
| Ev.readPos => true
| _ => false

def isReadEkin : Ev → Bool
| Ev.readEkin => true
| _ => false

def isOut : Ev → Bool
| Ev.output => true
| _ => false

/-- Dispatch events and their global work size (`none` for transfers and
host output). -/
def dispatchWS : Ev → Option Nat
| Ev.azzero w => some w
| Ev.verletFirst w => some w
| Ev.force w => some w
| Ev.verletSecond w => some w
| Ev.ekinKernel w => some w
| _ => none

/-- The guard of readbacks A (positions, line 370), B (potential partials,
line 401) and of the kinetic block (line 421): `(sys.nfi % nprint) == nprint-1`. -/
def readCond (nprint nfi : Nat) : Bool := nfi % nprint == nprint - 1

/-- The output guard (line 436): `(sys.nfi % nprint) == 0`. -/
def outCond (nprint nfi : Nat) : Bool := nfi % nprint == 0

/-- One iteration of the main MD loop (lines 339-457), with the two guards
abstracted to booleans: `verlet_first` dispatch (line 367); conditional
position readback (lines 370-379); `force` dispatch (line 398); conditional
potential-partials readback (lines 401-404); `verlet_second` dispatch
(line 419); conditional `ekin` dispatch and kinetic-partials readback
(lines 421-433); conditional output (lines 436-455). -/
def stepEventsB (nt : Nat) (rb out : Bool) : List Ev :=
  [Ev.verletFirst nt]
  ++ (if rb then [Ev.readPos] else [])
  ++ [Ev.force nt]
  ++ (if rb then [Ev.readEpot] else [])
  ++ [Ev.verletSecond nt]
  ++ (if rb then [Ev.ekinKernel nt, Ev.readEkin] else [])
  ++ (if out then [Ev.output] else [])

/-- The events of loop iteration `nfi` for print interval `nprint`. -/
def stepEvents (nt nprint nfi : Nat) : List Ev :=
  stepEventsB nt (readCond nprint nfi) (outCond nprint nfi)

/-- The initialization sequence before the loop (lines 278-335): the single
`azzero` dispatch (line 281), the initial `force` dispatch (line 298),
potential-partials readback (line 300), `ekin` dispatch (line 312),
kinetic-partials readback (line 314), position readback (lines 327-329),
and the step-0 output (line 335). -/
def initEvents (nt : Nat) : List Ev :=
  [Ev.azzero nt, Ev.force nt, Ev.readEpot, Ev.ekinKernel nt, Ev.readEkin,
   Ev.readPos, Ev.output]

/-- Which integration step last overwrote each host staging area: the
position buffers `buffers[0..2]`, the potential partials `tmp_epot`, and
the kinetic partials `tmp_ekin`. -/
structure Stage where
  pos : Nat
  epot : Nat
  ekin : Nat
deriving DecidableEq

/-- Effect of loop iteration `nfi` on the staging areas: all three
readbacks are guarded by the same condition `nfi % nprint == nprint-1`
and write the host buffers during iteration `nfi`. -/
def stepStage (nprint nfi : Nat) (st : Stage) : Stage :=
  if readCond nprint nfi then ⟨nfi, nfi, nfi⟩ else st

/-- Staging-area generations after iteration `n` of the loop; step 0 is
the initialization section, which downloads all three areas. -/
def stageAfter (nprint : Nat) : Nat → Stage
| 0 => ⟨0, 0, 0⟩
| n + 1 => stepStage nprint (n + 1) (stageAfter nprint n)

/-- Generations of the staged data consumed by the output block of
iteration `nfi` (the readbacks of iteration `nfi` precede its output
block, so the output sees `stageAfter nprint nfi`); `none` when iteration
`nfi` emits no output. -/
def outputGens (nprint nfi : Nat) : Option Stage :=
  if outCond nprint nfi then some (stageAfter nprint nfi) else none

/-- How the `status` variable is updated by one device-facility call:
plain assignment `status = ...` or accumulation `status |= ...`. -/
inductive UpdKind
| set
| orr
deriving DecidableEq

/-- Status-variable history events: an update, or a `CheckSuccess`
checkpoint. -/
inductive SEv
| upd (k : UpdKind)
| check
deriving DecidableEq

/-- Updates of `status` in the initialization sequence cited at lines
279-300: `status = clSetMultKernelArgs` (279), `status =
clEnqueueNDRangeKernel` (281), `status |= clSetMultKernelArgs` (283),
`status = clEnqueueNDRangeKernel` (298), `status |= clEnqueueReadBuffer`
(300).  No `CheckSuccess` occurs in this range. -/
def initStatusEvents : List SEv :=
  [SEv.upd UpdKind.set, SEv.upd UpdKind.set, SEv.upd UpdKind.orr,
   SEv.upd UpdKind.set, SEv.upd UpdKind.orr]

/-- Updates of `status` and `CheckSuccess` checkpoints in one loop
iteration (lines 352-432), with the readback guard abstracted to `rb`:
`|=` 352, check 366, `=` 367; if `rb`: `=` 371, `|=` 372, `|=` 373,
check 375; `|=` 382, check 397, `=` 398; if `rb`: `|=` 402, check 403;
`|=` 407, check 418, `=` 419; if `rb`: `|=` 424, check 426, `=` 427,
`|=` 431, check 432. -/
def loopStatusEvents (rb : Bool) : List SEv :=
  [SEv.upd UpdKind.orr, SEv.check, SEv.upd UpdKind.set]
  ++ (if rb then [SEv.upd UpdKind.set, SEv.upd UpdKind.orr,
                  SEv.upd UpdKind.orr, SEv.check] else [])
  ++ [SEv.upd UpdKind.orr, SEv.check, SEv.upd UpdKind.set]
  ++ (if rb then [SEv.upd UpdKind.orr, SEv.check] else [])
  ++ [SEv.upd UpdKind.orr, SEv.check, SEv.upd UpdKind.set]
  ++ (if rb then [SEv.upd UpdKind.orr, SEv.check, SEv.upd UpdKind.set,
                  SEv.upd UpdKind.orr, SEv.check] else [])

/-- "No call result is discarded by overwriting": every plain assignment
occurs only at the start of a checkpoint window (at the start of the
sequence or immediately after a checkpoint), so everything later in a
window is OR-accumulated.  The boolean argument tracks being at a window
start. -/
def noDiscardAux : Bool → List SEv → Bool
| _, [] => true
| _, SEv.check :: r => noDiscardAux true r
| b, SEv.upd UpdKind.set :: r => b && noDiscardAux false r
| _, SEv.upd UpdKind.orr :: r => noDiscardAux false r

def noDiscard (l : List SEv) : Bool := noDiscardAux true l

/-- Number of checkpoint events in a status history. -/
def checkCount (l : List SEv) : Nat := l.countP (fun e => e == SEv.check)

/-! ## Helper lemmas -/

lemma sumPartials_eq_sum (l : List ℚ) : sumPartials l = l.sum := by
  rw [sumPartials, List.sum_eq_foldl]

lemma stageAfter_succ (nprint n : Nat) :
    stageAfter nprint (n + 1) = stepStage nprint (n + 1) (stageAfter nprint n) := rfl

lemma stageAfter_at_read (nprint k : Nat) (h : readCond nprint (k + 1) = true) :
    stageAfter nprint (k + 1) = ⟨k + 1, k + 1, k + 1⟩ := by
  rw [stageAfter_succ, stepStage, h]
  simp

lemma stageAfter_skip (nprint k : Nat) (h : readCond nprint (k + 1) = false) :
    stageAfter nprint (k + 1) = stageAfter nprint k := by
  rw [stageAfter_succ, stepStage, h]
  simp

/-! ## Claims -/

/-- Claim C3: whenever the host finalizes energies (initialization, lines
314-318, and every print boundary, lines 438-451), the total kinetic
energy is the sum of the per-worker partials multiplied by one-half times
the mass times `mvsq2e`, and the temperature is `2*Ekin/((3N-3)*kboltz)`,
for every particle count `N ≥ 2`. -/
theorem c3_energy_finalization (parts : List ℚ) (mass : ℚ) (n : ℕ) (_h : 2 ≤ n) :
    finalizeEkin parts mass = parts.sum * (1 / 2 * mass * mvsq2e)
    ∧ finalizeTemp (finalizeEkin parts mass) n
      = 2 * finalizeEkin parts mass / ((3 * (n : ℚ) - 3) * kboltz) := by
  constructor
  · rw [finalizeEkin, sumPartials_eq_sum]
    ring
  · rw [finalizeTemp, div_div]

/-- Witness for C3 at `parts = [1]`, `mass = 1`, `N = 2`. -/
theorem c3_energy_finalization_witness :
    finalizeTemp (finalizeEkin [1] 1) 2
      = 2 * finalizeEkin [1] 1 / ((3 * ((2 : ℕ) : ℚ) - 3) * kboltz) :=
  (c3_energy_finalization [1] 1 2 (by decide)).2

/-- Claim C4: the delivered line has the comment cut and trailing
whitespace stripped, but — contrary to the function's own documentation
("return the first string with whitespace stripped off") and to the spec —
leading whitespace is kept, because line 84 copies `tmp` instead of the
leading-whitespace-skipped pointer `ptr`.  Evaluated at the failing input
`" 42\n"`. -/
theorem c4_leading_whitespace_kept :
    get_me_a_line (" 42\n".toList) = (" 42".toList)
    ∧ spec_trimmed_line (" 42\n".toList) = ("42".toList)
    ∧ get_me_a_line (" 42\n".toList) ≠ spec_trimmed_line (" 42\n".toList) := by
  decide

/-- Claim C5 counterexample: the thread-count argument `"0"` is not a
positive integer, yet the argument handling accepts it (no usage message,
no exit): only strictly negative parses are rejected (line 154). -/
theorem c5_counterexample :
    parseArgs ["./ljmd-cl.x", "cpu", "0"] = ArgResult.ok 0
    ∧ parseArgs ["./ljmd-cl.x", "cpu", "0"] ≠ ArgResult.usageExit := by
  decide

/-- Claim C5 amended: a thread-count argument parsing to a *negative*
value, or an argument count other than 2 or 3, makes the program print
usage and exit with status 1 before any simulation work; a thread count
parsing to 0 is accepted. -/
theorem c5_amended_usage (p d t : String) (argv : List String)
    (hneg : strtol10 t.toList < 0)
    (hlen2 : argv.length ≠ 2) (hlen3 : argv.length ≠ 3) :
    parseArgs [p, d, t] = ArgResult.usageExit
    ∧ parseArgs argv = ArgResult.usageExit := by
  constructor
  · simp only [parseArgs]
    rw [if_pos hneg]
  · match argv with
    | [] => rfl
    | [_] => rfl
    | [_, _] => exact absurd rfl hlen2
    | [_, _, _] => exact absurd rfl hlen3
    | _ :: _ :: _ :: _ :: _ => rfl

/-- Witness for C5's amended statement at `t = "-1"` and `argv = []`. -/
theorem c5_amended_usage_witness :
    parseArgs [("./ljmd-cl.x"), ("cpu"), ("-1")] = ArgResult.usageExit
    ∧ parseArgs [] = ArgResult.usageExit :=
  c5_amended_usage ("./ljmd-cl.x") ("cpu") ("-1") [] (by decide) (by decide) (by decide)

/-- Claim C8: with accepted arguments, device-facility initialization
failure exits with status 4 (lines 165-168); if initialization succeeds
and all twelve input lines read but the restart file cannot be opened, the
exit status is 3 (lines 232-235); if any input line fails to read, the
program exits with status 1 — a non-zero status — without proceeding
(lines 171-191). -/
theorem c8_exit_codes (argv : List String) (n : Int) (lineOK : List Bool)
    (restartOK : Bool) (hp : parseArgs argv = ArgResult.ok n) :
    mainExit argv false lineOK restartOK = some 4
    ∧ (lineOK.all (fun b => b) = true → restartOK = false →
        mainExit argv true lineOK restartOK = some 3)
    ∧ (lineOK.all (fun b => b) = false →
        mainExit argv true lineOK restartOK = some 1 ∧ (1 : Nat) ≠ 0) := by
  refine ⟨?_, ?_, ?_⟩
  · simp [mainExit, hp]
  · intro hl hr
    simp [mainExit, hp, hl, hr]
  · intro hl
    exact ⟨by simp [mainExit, hp, hl], by decide⟩

/-- Witness for C8 at a concrete accepted command line. -/
theorem c8_exit_codes_witness :
    mainExit [("./ljmd-cl.x"), ("gpu")] false [] true = some 4 :=
  (c8_exit_codes [("./ljmd-cl.x"), ("gpu")] 1024 [] true (by decide)).1

/-- Claim C10: a thread-count argument of `"0"`, or any string with no
leading digits (`strtol` then returns 0), is accepted — the program
neither prints usage nor exits — and proceeds so that every kernel
dispatch of the initialization section and of every loop iteration uses a
global work size of 0 (since `globalWorkSize[0] = nthreads`, lines
240-241). -/
theorem c10_zero_threads_accepted :
    parseArgs [("./ljmd-cl.x"), ("gpu"), ("0")] = ArgResult.ok 0
    ∧ strtol10 ("abc".toList) = 0
    ∧ parseArgs [("./ljmd-cl.x"), ("gpu"), ("abc")] = ArgResult.ok 0
    ∧ mainExit [("./ljmd-cl.x"), ("gpu"), ("0")] true (List.replicate 12 true) true = none
    ∧ (∀ e, e ∈ initEvents 0 → dispatchWS e = none ∨ dispatchWS e = some 0)
    ∧ (∀ nprint nfi e, e ∈ stepEvents 0 nprint nfi →
        dispatchWS e = none ∨ dispatchWS e = some 0) := by
  refine ⟨by decide, by decide, by decide, by decide, by decide, ?_⟩
  intro nprint nfi e he
  rw [stepEvents] at he
  cases hb : readCond nprint nfi <;> cases hc : outCond nprint nfi <;>
    rw [hb, hc] at he <;> revert he <;> revert e <;> decide

/-- Witness for C10's dispatch-size statement at the force dispatch of
loop iteration 1 with print interval 1. -/
theorem c10_zero_threads_accepted_witness :
    dispatchWS (Ev.force 0) = none ∨ dispatchWS (Ev.force 0) = some 0 :=
  c10_zero_threads_accepted.2.2.2.2.2 1 1 (Ev.force 0) (by decide)

/-- Claim C1 counterexample: loop iteration 1 with print interval 3 (a
non-readback, non-output step, representative of every loop iteration)
dispatches the force kernel but contains no zero-fill dispatch, so a
zero-fill dispatch does **not** precede every force dispatch. -/
theorem c1_counterexample :
    (stepEvents 16 3 1).countP isForce = 1
    ∧ (stepEvents 16 3 1).countP isAzzero = 0 := by
  decide

/-- Claim C1 amended: the zero-fill kernel is dispatched exactly once, in
the initialization section (line 281) immediately before the initial force
dispatch (line 298); no loop iteration contains a zero-fill dispatch, so
the per-step force dispatches are not preceded by one. -/
theorem c1_azzero_only_at_init (nt nprint nfi : Nat) :
    (initEvents nt).countP isAzzero = 1
    ∧ (initEvents nt).findIdx isAzzero = 0
    ∧ (initEvents nt).findIdx isForce = 1
    ∧ (stepEvents nt nprint nfi).countP isAzzero = 0 := by
  refine ⟨rfl, rfl, rfl, ?_⟩
  simp only [stepEvents]
  cases hb : readCond nprint nfi <;> cases hc : outCond nprint nfi <;> rfl

/-- Claim C2 counterexample: with print interval 1, the output of loop
iteration 1 consumes staging data downloaded during iteration 1 itself,
not data of generation 0 (one integration step before the boundary). -/
theorem c2_counterexample :
    outputGens 1 1 = some ⟨1, 1, 1⟩
    ∧ outputGens 1 1 ≠ some ⟨0, 0, 0⟩
    ∧ outCond 1 1 = true := by
  decide

/-- Claim C2 amended: for every print interval `nprint ≥ 2` and every
output step `nfi` (`1 ≤ nfi`, `nfi % nprint = 0`), the positions,
potential partials and kinetic partials consumed by the output block are
exactly those downloaded during step `nfi - 1`, the step whose index is
congruent to `nprint - 1` modulo `nprint`; for `nprint = 1` the data is
downloaded during the output step itself. -/
theorem c2_stale_by_one_step (nprint nfi : Nat) (h2 : 2 ≤ nprint)
    (h1 : 1 ≤ nfi) (ho : nfi % nprint = 0) :
    outputGens nprint nfi = some ⟨nfi - 1, nfi - 1, nfi - 1⟩
    ∧ (nfi - 1) % nprint = nprint - 1 := by
  obtain ⟨q, hq⟩ := Nat.dvd_of_mod_eq_zero ho
  have hq0 : q ≠ 0 := by
    rintro rfl
    omega
  obtain ⟨q1, rfl⟩ : ∃ q1, q = q1 + 1 := ⟨q - 1, by omega⟩
  rw [Nat.mul_succ] at hq
  have key : (nfi - 1) % nprint = nprint - 1 := by
    have h3 : nfi - 1 = (nprint - 1) + nprint * q1 := by
      generalize nprint * q1 = m at hq ⊢
      omega
    rw [h3, Nat.add_mul_mod_self_left]
    exact Nat.mod_eq_of_lt (by omega)
  have h2n : 2 ≤ nfi := by
    generalize nprint * q1 = m at hq
    omega
  obtain ⟨k, rfl⟩ : ∃ k, nfi = k + 1 + 1 := ⟨nfi - 2, by omega⟩
  have hrc0 : readCond nprint (k + 1 + 1) = false := by
    simp only [readCond, ho]
    simp only [beq_eq_false_iff_ne, ne_eq]
    omega
  have hrc1 : readCond nprint (k + 1) = true := by
    have hk : (k + 1 + 1) - 1 = k + 1 := rfl
    rw [hk] at key
    simp [readCond, key]
  have hout : outCond nprint (k + 1 + 1) = true := by
    simp [outCond, ho]
  refine ⟨?_, key⟩
  rw [outputGens, hout]
  simp only [if_true]
  rw [stageAfter_skip nprint (k + 1) hrc0, stageAfter_at_read nprint k hrc1]
  simp

/-- Witness for C2's amended statement at `nprint = 2`, `nfi = 2`. -/
theorem c2_stale_by_one_step_witness :
    outputGens 2 2 = some ⟨1, 1, 1⟩ :=
  (c2_stale_by_one_step 2 2 (by decide) (by decide) (by decide)).1

/-- Claim C6 counterexample: in the initialization sequence (lines
279-300) the zero-fill dispatch result overwrites the preceding
`clSetMultKernelArgs` result and the force dispatch overwrites the
accumulated status (plain `status = ...` assignments), so results there
are *not* all accumulated by bitwise OR; the same happens on readback
iterations of the loop (line 371 overwrites the line-367 dispatch
status). -/
theorem c6_counterexample :
    noDiscard initStatusEvents = false
    ∧ noDiscard (loopStatusEvents true) = false := by
  decide

/-- Claim C6 amended: call results go into the single `status` variable
partly by OR and partly by plain assignment, and the variable is read only
at the `CheckSuccess` checkpoints (7 on a readback iteration, 3 on other
iterations, none at all during initialization); on non-readback iterations
every plain assignment sits immediately after a checkpoint, but during
initialization and on readback iterations plain assignments overwrite
(discard) unchecked results. -/
theorem c6_status_accumulation :
    noDiscard (loopStatusEvents false) = true
    ∧ noDiscard (loopStatusEvents true) = false
    ∧ noDiscard initStatusEvents = false
    ∧ checkCount initStatusEvents = 0
    ∧ checkCount (loopStatusEvents false) = 3
    ∧ checkCount (loopStatusEvents true) = 7 := by
  decide

/-- Claim C7: every loop iteration dispatches exactly one `verlet_first`
(line 367), one `force` (line 398) and one `verlet_second` (line 419)
kernel, in that order: the force evaluation runs strictly between the two
half-kicks and after the position update (which `verlet_first` performs). -/
theorem c7_dispatch_order (nt nprint nfi : Nat) :
    (stepEvents nt nprint nfi).countP isVerletFirst = 1
    ∧ (stepEvents nt nprint nfi).countP isForce = 1
    ∧ (stepEvents nt nprint nfi).countP isVerletSecond = 1
    ∧ (stepEvents nt nprint nfi).findIdx isVerletFirst
        < (stepEvents nt nprint nfi).findIdx isForce
    ∧ (stepEvents nt nprint nfi).findIdx isForce
        < (stepEvents nt nprint nfi).findIdx isVerletSecond := by
  simp only [stepEvents]
  cases hb : readCond nprint nfi <;> cases hc : outCond nprint nfi <;>
    exact ⟨rfl, rfl, rfl, Nat.lt_of_sub_eq_succ rfl, Nat.lt_of_sub_eq_succ rfl⟩

/-- Claim C9: with print interval 1 the readback guard coincides with the
output guard, every loop iteration performs all readbacks and the output,
and the output consumes data downloaded during the same iteration — the
positions after the first half-kick (readback follows `verlet_first` and
precedes `force`) and the kinetic partials after the second half-kick
(the `ekin` dispatch and its readback follow `verlet_second` and precede
the output). -/
theorem c9_same_step_output (nt nfi : Nat) (h1 : 1 ≤ nfi) :
    readCond 1 nfi = outCond 1 nfi
    ∧ outputGens 1 nfi = some ⟨nfi, nfi, nfi⟩
    ∧ stepEvents nt 1 nfi
      = [Ev.verletFirst nt, Ev.readPos, Ev.force nt, Ev.readEpot,
         Ev.verletSecond nt, Ev.ekinKernel nt, Ev.readEkin, Ev.output]
    ∧ (stepEvents nt 1 nfi).findIdx isVerletFirst
        < (stepEvents nt 1 nfi).findIdx isReadPos
    ∧ (stepEvents nt 1 nfi).findIdx isReadPos
        < (stepEvents nt 1 nfi).findIdx isForce
    ∧ (stepEvents nt 1 nfi).findIdx isVerletSecond
        < (stepEvents nt 1 nfi).findIdx isEkinKernel
    ∧ (stepEvents nt 1 nfi).findIdx isReadEkin
        < (stepEvents nt 1 nfi).findIdx isOut := by
  have hrc : readCond 1 nfi = true := by
    simp [readCond, Nat.mod_one]
  have hoc : outCond 1 nfi = true := by
    simp [outCond, Nat.mod_one]
  obtain ⟨k, rfl⟩ : ∃ k, nfi = k + 1 := ⟨nfi - 1, by omega⟩
  have hstep : stepEvents nt 1 (k + 1)
      = [Ev.verletFirst nt, Ev.readPos, Ev.force nt, Ev.readEpot,
         Ev.verletSecond nt, Ev.ekinKernel nt, Ev.readEkin, Ev.output] := by
    simp only [stepEvents, hrc, hoc]
    rfl
  refine ⟨by rw [hrc, hoc], ?_, hstep, ?_, ?_, ?_, ?_⟩
  · rw [outputGens, hoc]
    simp only [if_true]
    rw [stageAfter_at_read 1 k hrc]
  all_goals
    rw [hstep]
    exact Nat.lt_of_sub_eq_succ rfl

/-- Witness for C9 at `nt = 16`, `nfi = 1`. -/
theorem c9_same_step_output_witness :
    outputGens 1 1 = some ⟨1, 1, 1⟩ :=
  (c9_same_step_output 16 1 (by decide)).2.1

end LjmdCL
